import Mathlib

/-!
Verification of the structural-variant evidence pipeline of
`genome_designer/genome_finish/assembly.py` (millstone).

The Python module is shallowly embedded: the string-keyed velvet option
dictionaries become association lists addressed through an explicit heap
(so that Python reference aliasing of the inner dictionaries is modelled
faithfully), numbers become rationals, fallible code returns `Except`,
and side-effecting steps (dataset creation, file generation, directory
removal) become explicit state passing.
-/

namespace Millstone

/-! ## Velvet option dictionaries (assembly.py lines 54-75)

Python dictionaries holding heterogeneous values are modelled as
association lists from `String` to `VVal`.  `DEFAULT_VELVET_OPTS` is a
two-level dictionary; since `generate_contigs` copies it with a shallow
`dict(...)` call, the inner dictionaries must be shared by reference.
We model this with a heap mapping addresses to inner dictionaries; the
top-level dictionary maps the group name to the address of its inner
dictionary. -/

inductive VVal where
  | num (q : ℚ)
  | str (s : String)
deriving DecidableEq, Repr

abbrev InnerDict := List (String × VVal)

def dictGet (d : InnerDict) (k : String) : Option VVal :=
  match d.find? (fun p => p.1 == k) with
  | some p => some p.2
  | none => none

def dictSet (d : InnerDict) (k : String) (v : VVal) : InnerDict :=
  if d.any (fun p => p.1 == k) then
    d.map (fun p => if p.1 == k then (k, v) else p)
  else d ++ [(k, v)]

abbrev Heap := List (Nat × InnerDict)

def heapGet (h : Heap) (a : Nat) : InnerDict :=
  match h.find? (fun p => p.1 == a) with
  | some p => p.2
  | none => []

def heapSet (h : Heap) (a : Nat) (d : InnerDict) : Heap :=
  if h.any (fun p => p.1 == a) then
    h.map (fun p => if p.1 == a then (a, d) else p)
  else h ++ [(a, d)]

abbrev TopDict := List (String × Nat)

def topGet (t : TopDict) (k : String) : Option Nat :=
  match t.find? (fun p => p.1 == k) with
  | some p => some p.2
  | none => none

def resolveDict (h : Heap) (t : TopDict) (k : String) : InnerDict :=
  match topGet t k with
  | some a => heapGet h a
  | none => []

def resolveGet (h : Heap) (t : TopDict) (g k : String) : Option VVal :=
  dictGet (resolveDict h t g) k

def heapWrite (h : Heap) (t : TopDict) (g k : String) (v : VVal) : Heap :=
  match topGet t g with
  | some a => heapSet h a (dictSet (heapGet h a) k v)
  | none => h

/-! Module-level constants (assembly.py lines 58-75). -/

def VELVET_COVERAGE_CUTOFF : ℚ := 30

def VELVET_HASH_LENGTH : ℚ := 21

def VELVET_MIN_CONTIG_LENGTH : ℚ := 200

def VELVET_CONTIG_COVERAGE_EXPECTED : ℚ := 8 / 10

def VELVET_CONTIG_COVERAGE_CUTOFF : ℚ := 2 / 10

/-- The top-level `DEFAULT_VELVET_OPTS` dictionary: `velveth` and
`velvetg` name the heap cells 0 and 1 respectively. -/
def DEFAULT_VELVET_OPTS : TopDict := [("velveth", 0), ("velvetg", 1)]

/-- The initial heap: cell 0 holds the default `velveth` options and
cell 1 the default `velvetg` options, exactly as in the source. -/
def initial_heap : Heap :=
  [(0, [("hash_length", VVal.num VELVET_HASH_LENGTH)]),
   (1, [("read_trkg", VVal.str "yes"),
        ("cov_cutoff", VVal.num VELVET_COVERAGE_CUTOFF),
        ("min_contig_lgth", VVal.num VELVET_MIN_CONTIG_LENGTH)])]

/-- `kmer_coverage` (assembly.py lines 147-155): converts contig
coverage to kmer coverage via `C * (L - k + 1) / float(L)`. -/
def kmer_coverage (C L k : ℚ) : ℚ := C * (L - k + 1) / L

/-- Per-sample statistics that `generate_contigs` obtains from the
sample alignment: insert-size mean and standard deviation
(`get_insert_size_mean_and_stdev`) and the average genome coverage
(`get_avg_genome_coverage`). -/
structure SampleStats where
  ins_length : ℚ
  ins_length_sd : ℚ
  avg_read_coverage : ℚ

/-- The velvet-option computation performed by `generate_contigs`
(assembly.py lines 249-276): `velvet_opts = dict(DEFAULT_VELVET_OPTS)`
is a shallow copy, so the returned top-level dictionary holds the same
inner-dictionary addresses as `DEFAULT_VELVET_OPTS`; the per-sample
insert metrics, expected coverage, coverage cutoff and finally the
caller-supplied overrides are written through those shared addresses. -/
def generate_contigs_velvet_opts (h : Heap) (stats : SampleStats)
    (input_velvet_opts : List (String × InnerDict)) : Heap × TopDict :=
  let velvet_opts := DEFAULT_VELVET_OPTS
  let h1 := heapWrite h velvet_opts "velvetg" "ins_length"
      (VVal.num stats.ins_length)
  let h2 := heapWrite h1 velvet_opts "velvetg" "ins_length_sd"
      (VVal.num stats.ins_length_sd)
  let hash_length : ℚ :=
    match resolveGet h2 velvet_opts "velveth" "hash_length" with
    | some (VVal.num q) => q
    | _ => 0
  let genome_kmer_coverage :=
    kmer_coverage stats.avg_read_coverage stats.ins_length hash_length
  let exp_cov := genome_kmer_coverage * VELVET_CONTIG_COVERAGE_EXPECTED
  let h3 := heapWrite h2 velvet_opts "velvetg" "exp_cov" (VVal.num exp_cov)
  let cov_cutoff := genome_kmer_coverage * VELVET_CONTIG_COVERAGE_CUTOFF
  let h4 := heapWrite h3 velvet_opts "velvetg" "cov_cutoff" (VVal.num cov_cutoff)
  let h5 := (["velveth", "velvetg"]).foldl (fun hAcc shallow_key =>
      match input_velvet_opts.find? (fun p => p.1 == shallow_key) with
      | none => hAcc
      | some p => p.2.foldl
          (fun hAcc2 q => heapWrite hAcc2 velvet_opts shallow_key q.1 q.2)
          hAcc) h4
  (h5, velvet_opts)

/-! ## The velveth/velvetg command lines (assembly.py lines 752-802)

An argument is either a literal token fixed in the source, a
`-key value` token built from a dictionary entry, or a value read with
`velvet_opts['velvetg'].get(key, None)` (rendered from an optional
value, `str(None)` included). -/

inductive VelvetArg where
  | lit (s : String)
  | flagval (k : String) (v : VVal)
  | val (v : Option VVal)
deriving DecidableEq, Repr

/-- Arguments of the `velveth` invocation built by `_run_velvet`: the
hash length first, then `-key value` for every other key of the
`velveth` group, then the fixed `-bam -shortPaired <bam>` tail. -/
def velveth_args (h : Heap) (t : TopDict) (sv_indicants_bam : String) :
    List VelvetArg :=
  let vh := resolveDict h t "velveth"
  VelvetArg.val (dictGet vh "hash_length") ::
    ((vh.filter (fun p => !(p.1 == "hash_length"))).map
        (fun p => VelvetArg.flagval p.1 p.2)
      ++ [VelvetArg.lit "-bam", VelvetArg.lit "-shortPaired",
          VelvetArg.lit sv_indicants_bam])

/-- Arguments of the `velvetg` invocation built by `_run_velvet`: only
the five keys `ins_length`, `exp_cov`, `ins_length_sd`, `cov_cutoff`
and `min_contig_lgth` are read from the `velvetg` group (via `.get`),
while `-scaffolding no` and `-read_trkg yes` are hard-coded literals. -/
def velvetg_args (h : Heap) (t : TopDict) (assembly_dir : String) :
    List VelvetArg :=
  let vg := resolveDict h t "velvetg"
  [VelvetArg.lit assembly_dir,
   VelvetArg.lit "-ins_length", VelvetArg.val (dictGet vg "ins_length"),
   VelvetArg.lit "-exp_cov", VelvetArg.val (dictGet vg "exp_cov"),
   VelvetArg.lit "-scaffolding", VelvetArg.lit "no",
   VelvetArg.lit "-ins_length_sd", VelvetArg.val (dictGet vg "ins_length_sd"),
   VelvetArg.lit "-cov_cutoff", VelvetArg.val (dictGet vg "cov_cutoff"),
   VelvetArg.lit "-min_contig_lgth",
   VelvetArg.val (dictGet vg "min_contig_lgth"),
   VelvetArg.lit "-read_trkg", VelvetArg.lit "yes"]

/-! ## Per-contig reassembly refinement (assembly.py lines 505-533, 805-830) -/

/-- One record of a `contigs.fa` file as parsed by `SeqIO.parse`. -/
structure SeqRecord where
  seq : String
deriving DecidableEq, Repr

/-- `_extract_single_node_from_contig_reassembly` (lines 805-830): after
parsing the per-contig `contigs.fa`, the source returns `None` when
`len(records) > 1` and `records[0]` otherwise; with zero records the
`records[0]` access raises an `IndexError`. -/
def extract_single_node_from_contig_reassembly (records : List SeqRecord) :
    Except String (Option SeqRecord) :=
  if records.length > 1 then Except.ok none
  else
    match records with
    | [] => Except.error "IndexError: list index out of range"
    | r :: _ => Except.ok (some r)

/-- The metadata attached to a contig before refinement: label (line
495), coverage and node number (lines 507-509). -/
structure ContigMeta where
  label : String
  coverage : ℚ
  node_number : Nat
deriving DecidableEq, Repr

/-- A contig as refined by `assemble_with_velvet`: the sequence plus the
metadata written before the reassembly step. -/
structure RefinedContig where
  seq : String
  meta : ContigMeta
deriving DecidableEq, Repr

/-- The refinement step of `assemble_with_velvet` (lines 528-533): run
the extraction on the isolated reassembly's records and, if it returns
a record, replace only the contig's sequence with the reassembled one;
the metadata written before the step is untouched. -/
def refine_contig_with_reassembly (original : RefinedContig)
    (reassembly_records : List SeqRecord) : Except String RefinedContig :=
  match extract_single_node_from_contig_reassembly reassembly_records with
  | Except.error e => Except.error e
  | Except.ok none => Except.ok original
  | Except.ok (some r) => Except.ok { original with seq := r.seq }

/-! ## Contig ranking and evaluation (assembly.py lines 552-618) -/

/-- The contig fields used by `evaluate_contigs`: `num_bases` and
`coverage`, plus the label for identification. -/
structure Contig where
  label : String
  num_bases : Nat
  coverage : ℚ
deriving DecidableEq, Repr

/-- `_length_weighted_coverage` (lines 555-556):
`contig.num_bases * contig.coverage`. -/
def length_weighted_coverage (c : Contig) : ℚ :=
  (c.num_bases : ℚ) * c.coverage

/-- One step of the stable descending sort performed by
`contig_list.sort(key=_length_weighted_coverage, reverse=True)`
(line 559): insert `c` before the first element whose key is not
greater than `c`'s, so that elements with strictly greater key stay in
front and, among equal keys, earlier elements stay earlier. -/
def insert_desc (c : Contig) : List Contig → List Contig
  | [] => [c]
  | d :: ds =>
    if length_weighted_coverage d ≤ length_weighted_coverage c then
      c :: d :: ds
    else d :: insert_desc c ds

/-- The stable descending sort by length-weighted coverage: the
semantics of Python's stable `list.sort(key=..., reverse=True)`. -/
def sort_desc_stable : List Contig → List Contig
  | [] => []
  | c :: cs => insert_desc c (sort_desc_stable cs)

/-- A variant dictionary produced by `graph_contig_placement`; its
contents are opaque to `evaluate_contigs`, which only tests the lists
for emptiness. -/
structure VarDict where
  info : String
deriving DecidableEq, Repr

/-- A VCF file written by `evaluate_contigs` together with the dataset
registered for it via `add_dataset_to_entity`. -/
structure OutputArtifact where
  vcf_path : String
  dataset_type : String
deriving DecidableEq, Repr

/-- The output section of `evaluate_contigs` (lines 573-618): the
placeable-contig VCF and dataset are produced when
`len(placeable_contigs)` is nonzero, and each of the two var-dict
groups is skipped by `if not var_dl: continue` when empty. -/
def evaluate_contigs_outputs (data_dir : String)
    (placeable_contigs : List Contig)
    (var_dict_list me_var_dict_list : List VarDict) : List OutputArtifact :=
  (if placeable_contigs.length ≠ 0 then
      [{ vcf_path := data_dir ++ "/de_novo_assembled_contigs.vcf",
         dataset_type := "VCF_DE_NOVO_ASSEMBLED_CONTIGS" }]
    else []) ++
  (if var_dict_list ≠ [] then
      [{ vcf_path := data_dir ++ "/de_novo_assembly_translocations.vcf",
         dataset_type := "VCF_DE_NOVO_ASSEMBLY_GRAPH_WALK" }]
    else []) ++
  (if me_var_dict_list ≠ [] then
      [{ vcf_path := data_dir ++ "/de_novo_assembly_me_translocations.vcf",
         dataset_type := "VCF_DE_NOVO_ASSEMBLY_ME_GRAPH_WALK" }]
    else [])

/-- `evaluate_contigs` (lines 552-618): sort the contig list in place,
take its first element (`contig_list[0]`, an `IndexError` on an empty
list), hand the sorted list to `graph_contig_placement` (an external
collaborator, passed here as the function `gcp`), and serialize each
non-empty result group. -/
def evaluate_contigs
    (gcp : List Contig → List Contig × List VarDict × List VarDict)
    (data_dir : String) (contig_list : List Contig) :
    Except String (List OutputArtifact) :=
  let sorted := sort_desc_stable contig_list
  match sorted with
  | [] => Except.error "IndexError: list index out of range"
  | _ :: _ =>
    let r := gcp sorted
    Except.ok (evaluate_contigs_outputs data_dir r.1 r.2.1 r.2.2)

/-! ## SV-evidence gathering (assembly.py lines 294-457)

The six SV-evidence categories of `STRUCTURAL_VARIANT_BAM_DATASETS`
(lines 104-110).  The per-sample dataset store, the generator
invocations and the compiled evidence files become explicit state. -/

inductive SVKey where
  | altalign
  | piled
  | clipped
  | split
  | unmapped
  | discordant
deriving DecidableEq, Repr

/-- `STRUCTURAL_VARIANT_BAM_DATASETS`: the key iteration order of the
aggregation loop (`sv_indicant_keys` in `get_sv_indicating_reads`). -/
def sv_indicant_keys : List SVKey :=
  [SVKey.altalign, SVKey.piled, SVKey.clipped, SVKey.split,
   SVKey.unmapped, SVKey.discordant]

/-- `sv_indicant_class_to_filename_suffix` (lines 299-306). -/
def sv_indicant_class_to_filename_suffix : SVKey → String
  | SVKey.altalign => "altalign"
  | SVKey.piled => "piled"
  | SVKey.clipped => "clipped"
  | SVKey.split => "split"
  | SVKey.unmapped => "unmapped"
  | SVKey.discordant => "discordant"

/-- `sv_indicant_class_to_generator` (lines 308-319) defines a
generator for every one of the six keys, so the membership test
`key in sv_indicant_class_to_generator` is true for each of them. -/
def has_sv_indicant_generator (_ : SVKey) : Bool := true

/-- `default_sv_indicant_classes` (lines 321-328): clipped, split,
unmapped and discordant are enabled by default; altalign and piled are
disabled. -/
def default_sv_indicant_classes : SVKey → Bool
  | SVKey.altalign => false
  | SVKey.piled => false
  | _ => true

/-- `default_sv_indicant_classes.update(input_sv_indicant_classes)`
(line 329): caller-supplied entries shadow the defaults. -/
def updated_sv_indicant_classes (input : List (SVKey × Bool))
    (k : SVKey) : Bool :=
  match input.find? (fun p => p.1 == k) with
  | some p => p.2
  | none => default_sv_indicant_classes k

/-- Per-sample evidence state: the sample's datasets (each a key with a
numeric id, several per key representable so that duplicates are
observable), the id supply, the log of generator invocations, the set
of existing files, and the log of merge (concatenation) inputs. -/
structure EvState where
  datasets : List (SVKey × Nat)
  nextId : Nat
  generated : List SVKey
  files : List String
  merges : List (List Nat)
deriving DecidableEq, Repr

/-- `_get_or_create_sv_dataset` (lines 355-382), translated branch by
branch: return the existing dataset when one exists and overwrite is
off (the `assert len(dataset_query) == 1` becoming an error when it
fails); under overwrite delete the existing dataset first; then run the
generator and register a fresh dataset. The function body falling off
the end (returning `None`) is an error. -/
def get_or_create_sv_dataset (overwrite : Bool) (st : EvState)
    (key : SVKey) : Except String (Nat × EvState) :=
  let q := st.datasets.filter (fun p => p.1 == key)
  if (!q.isEmpty && !overwrite) ||
      (!q.isEmpty && !(has_sv_indicant_generator key)) then
    match q with
    | [d] => Except.ok (d.2, st)
    | _ => Except.error "AssertionError: len(dataset_query) == 1"
  else
    match (if !q.isEmpty && overwrite && has_sv_indicant_generator key then
            match q with
            | [d] => Except.ok
                { st with datasets := st.datasets.filter (fun p => !(p.2 == d.2)) }
            | _ => Except.error "AssertionError: len(dataset_query) == 1"
          else Except.ok st) with
    | Except.error e => Except.error e
    | Except.ok st1 =>
      if (overwrite && has_sv_indicant_generator key) || q.isEmpty then
        Except.ok (st1.nextId,
          { st1 with
            datasets := st1.datasets ++ [(key, st1.nextId)],
            nextId := st1.nextId + 1,
            generated := st1.generated ++ [key] })
      else Except.error "AttributeError: NoneType has no attribute"

/-- The aggregation loop of `get_sv_indicating_reads` (lines 384-388):
for each key in order, if its class is enabled, get or create the
dataset and append its location to `sv_bams_list`. -/
def aggregate_sv_datasets (overwrite : Bool) (classes : SVKey → Bool) :
    List SVKey → EvState → Except String (List Nat × EvState)
  | [], st => Except.ok ([], st)
  | k :: ks, st =>
    if classes k then
      match get_or_create_sv_dataset overwrite st k with
      | Except.error e => Except.error e
      | Except.ok (i, st1) =>
        match aggregate_sv_datasets overwrite classes ks st1 with
        | Except.error e => Except.error e
        | Except.ok (ids, st2) => Except.ok (i :: ids, st2)
    else aggregate_sv_datasets overwrite classes ks st

/-- Lexicographic comparison of character lists by code point — the
order Python compares strings with. -/
def charListLe : List Char → List Char → Bool
  | [], _ => true
  | _ :: _, [] => false
  | c :: cs, d :: ds =>
    if c.toNat < d.toNat then true
    else if d.toNat < c.toNat then false
    else charListLe cs ds

/-- Python's string ordering: code-point lexicographic. -/
def string_le_py (s t : String) : Bool := charListLe s.data t.data

/-- Insertion step of Python's `sorted` on strings (ascending). -/
def insert_string_asc (s : String) : List String → List String
  | [] => [s]
  | t :: ts =>
    if string_le_py s t then s :: t :: ts else t :: insert_string_asc s ts

/-- Python's `sorted` on a list of strings. -/
def sorted_strings : List String → List String
  | [] => []
  | s :: ss => insert_string_asc s (sorted_strings ss)

/-- `'_'.join(...)`. -/
def join_underscore : List String → String
  | [] => ""
  | [s] => s
  | s :: ss => s ++ "_" ++ join_underscore ss

/-- The compiled-evidence file path built by `get_sv_indicating_reads`
(lines 400-410): the alignment file prefix joined with the
underscore-joined sorted suffixes of the enabled classes and the
`.with_pairs.filtered.bam` extension. -/
def sv_indicants_filtered_path (classes : SVKey → Bool) : String :=
  let suffixes := (sv_indicant_keys.filter classes).map
      sv_indicant_class_to_filename_suffix
  "bwa_align." ++ join_underscore (sorted_strings suffixes) ++
    ".with_pairs.filtered.bam"

/-- `get_sv_indicating_reads` (lines 294-457): run the aggregation loop
over the six keys; build the jbrowse track for the discordant class by
`dataset_set.get(type=BWA_DISCORDANT)` — which raises `DoesNotExist`
when no such dataset exists and `MultipleObjectsReturned` when several
do; then return the compiled file unchanged if it exists and overwrite
is off, and otherwise run the concatenate/rmdup/add-mates/filter/sort
pipeline, recording the merged dataset ids. -/
def get_sv_indicating_reads (overwrite : Bool)
    (input_sv_indicant_classes : List (SVKey × Bool)) (st : EvState) :
    Except String (String × EvState) :=
  let classes := updated_sv_indicant_classes input_sv_indicant_classes
  match aggregate_sv_datasets overwrite classes sv_indicant_keys st with
  | Except.error e => Except.error e
  | Except.ok (sv_bams_list, st1) =>
    match st1.datasets.filter (fun p => p.1 == SVKey.discordant) with
    | [] => Except.error "Dataset.DoesNotExist"
    | _ :: _ :: _ => Except.error "Dataset.MultipleObjectsReturned"
    | [_] =>
      let filtered := sv_indicants_filtered_path classes
      if st1.files.contains filtered && !overwrite then
        Except.ok (filtered, st1)
      else
        Except.ok (filtered,
          { st1 with
            files := if st1.files.contains filtered then st1.files
                     else st1.files ++ [filtered],
            merges := st1.merges ++ [sv_bams_list] })

/-! ## Cleanup of previous pipeline runs (assembly.py lines 662-715) -/

/-- `STRUCTURAL_VARIANT_VCF_DATASETS` (lines 91-95): the four candidate
variant-VCF dataset types. -/
def STRUCTURAL_VARIANT_VCF_DATASETS : List String :=
  ["VCF_DE_NOVO_ASSEMBLED_CONTIGS",
   "VCF_DE_NOVO_ASSEMBLY_GRAPH_WALK",
   "VCF_DE_NOVO_ASSEMBLY_ME_GRAPH_WALK",
   "VCF_COV_DETECT_DELETIONS"]

/-- The names of `STRUCTURAL_VARIANT_BAM_DATASETS` (lines 104-110) as
dataset-type strings. -/
def STRUCTURAL_VARIANT_BAM_DATASET_NAMES : List String :=
  ["BWA_ALTALIGN", "BWA_PILED", "BWA_CLIPPED", "BWA_SPLIT",
   "BWA_UNMAPPED", "BWA_DISCORDANT"]

/-- The per-sample state that `clean_up_previous_runs_of_sv_calling_pipeline`
manipulates: the sample's contigs (by uid), its datasets (by type name,
with their backing files), its de novo variants, and the existing
filesystem directories. -/
structure SampleState where
  contig_uids : List String
  dataset_types : List String
  variant_uids : List Nat
  fs : List String
deriving DecidableEq, Repr

/-- `shutil.rmtree` without `ignore_errors`: removes the directory or
raises an `OSError` when it does not exist. -/
def rmtree (fs : List String) (p : String) : Except String (List String) :=
  if fs.contains p then Except.ok (fs.filter (fun q => !(q == p)))
  else Except.error ("OSError: no such directory: " ++ p)

/-- `clean_up_previous_runs_of_sv_calling_pipeline` (lines 662-715).
Note that the source computes `jbrowse_parent_path` from the reference
genome's jbrowse directory (lines 675-678) but never uses it: the
`shutil.rmtree` calls in the contig loop receive the bare
`<uid>_BWA_STRUCTURAL_VARIANT_INDICATING_READS` (and `..._COVERAGE`)
subdirectory names, exactly as translated here. -/
def clean_up_previous_runs_of_sv_calling_pipeline
    (jbrowse_dir : String) (sample_data_dir : String) (st : SampleState) :
    Except String SampleState :=
  let contig_uids := st.contig_uids
  let st1 : SampleState := { st with contig_uids := [] }
  let _jbrowse_parent_path := jbrowse_dir ++ "/indiv_tracks"
  match contig_uids.foldlM (fun fs uid =>
      let reads_subdir :=
        uid ++ "_BWA_STRUCTURAL_VARIANT_INDICATING_READS"
      let coverage_subdir := reads_subdir ++ "_COVERAGE"
      match rmtree fs reads_subdir with
      | Except.error e => Except.error e
      | Except.ok fs1 => rmtree fs1 coverage_subdir) st1.fs with
  | Except.error e => Except.error e
  | Except.ok fs2 =>
    let st2 : SampleState := { st1 with fs := fs2, variant_uids := [] }
    let st3 : SampleState := { st2 with
      dataset_types := st2.dataset_types.filter (fun d =>
        !(STRUCTURAL_VARIANT_VCF_DATASETS.contains d) &&
        !(STRUCTURAL_VARIANT_BAM_DATASET_NAMES.contains d) &&
        !(d == "MOBILE_ELEMENT_FASTA")) }
    let assembly_dir := sample_data_dir ++ "/assembly"
    let fs3 := if st3.fs.contains assembly_dir then
        st3.fs.filter (fun p => !(p == assembly_dir))
      else st3.fs
    Except.ok { st3 with fs := fs3 }

/-! ## Theorems -/

/-- C2: `kmer_coverage(C, L, k)` equals `C*(L-k+1)/L` for every coverage
C, template length L and hash length k (stated multiplicatively, with
the nonzero template length that real division requires); in particular
`kmer_coverage(30, 300, 21) = 28` exactly; and `generate_contigs` sets
the assembler's expected coverage to 0.8 times and the coverage cutoff
to 0.2 times (`VELVET_CONTIG_COVERAGE_EXPECTED` and
`VELVET_CONTIG_COVERAGE_CUTOFF`) the k-mer coverage computed from the
sample's average genome coverage, its mean insert length and the fixed
hash length 21. -/
theorem generate_contigs_kmer_coverage_parameters :
    (∀ C L k : ℚ, L ≠ 0 → kmer_coverage C L k * L = C * (L - k + 1)) ∧
    kmer_coverage 30 300 21 = 28 ∧
    (∀ stats : SampleStats,
      resolveGet (generate_contigs_velvet_opts initial_heap stats []).1
          (generate_contigs_velvet_opts initial_heap stats []).2
          "velvetg" "exp_cov" =
        some (VVal.num (kmer_coverage stats.avg_read_coverage
            stats.ins_length VELVET_HASH_LENGTH *
            VELVET_CONTIG_COVERAGE_EXPECTED))) ∧
    (∀ stats : SampleStats,
      resolveGet (generate_contigs_velvet_opts initial_heap stats []).1
          (generate_contigs_velvet_opts initial_heap stats []).2
          "velvetg" "cov_cutoff" =
        some (VVal.num (kmer_coverage stats.avg_read_coverage
            stats.ins_length VELVET_HASH_LENGTH *
            VELVET_CONTIG_COVERAGE_CUTOFF))) := by
  refine ⟨fun C L k hL => ?_, by unfold kmer_coverage; norm_num,
    fun stats => rfl, fun stats => rfl⟩
  unfold kmer_coverage
  exact div_mul_cancel₀ _ hL

/-- Witness for C2 at C = 30, L = 300, k = 21 and concrete sample
statistics (insert length 300, stdev 30, coverage 30). -/
theorem generate_contigs_kmer_coverage_parameters_witness :
    kmer_coverage 30 300 21 * 300 = 30 * (300 - 21 + 1) ∧
    resolveGet (generate_contigs_velvet_opts initial_heap ⟨300, 30, 30⟩ []).1
        (generate_contigs_velvet_opts initial_heap ⟨300, 30, 30⟩ []).2
        "velvetg" "exp_cov" =
      some (VVal.num (kmer_coverage 30 300 VELVET_HASH_LENGTH *
        VELVET_CONTIG_COVERAGE_EXPECTED)) :=
  ⟨generate_contigs_kmer_coverage_parameters.1 30 300 21 (by norm_num),
   generate_contigs_kmer_coverage_parameters.2.2.1 ⟨300, 30, 30⟩⟩

/-- C10: `generate_contigs` copies `DEFAULT_VELVET_OPTS` with a shallow
`dict(...)`, so the per-sample writes of `ins_length`,
`ins_length_sd`, `exp_cov` and `cov_cutoff` land in the shared inner
`velvetg` dictionary: after one call the values are readable through
the global `DEFAULT_VELVET_OPTS` itself, the global `velvetg`
dictionary differs from the initial one, and a subsequent call's
shallow copy resolves straight to the same (mutated) inner
dictionaries. -/
theorem generate_contigs_mutates_default_velvet_opts
    (stats stats2 : SampleStats) :
    resolveGet (generate_contigs_velvet_opts initial_heap stats []).1
        DEFAULT_VELVET_OPTS "velvetg" "ins_length" =
      some (VVal.num stats.ins_length) ∧
    resolveGet (generate_contigs_velvet_opts initial_heap stats []).1
        DEFAULT_VELVET_OPTS "velvetg" "ins_length_sd" =
      some (VVal.num stats.ins_length_sd) ∧
    resolveGet (generate_contigs_velvet_opts initial_heap stats []).1
        DEFAULT_VELVET_OPTS "velvetg" "exp_cov" =
      some (VVal.num (kmer_coverage stats.avg_read_coverage
          stats.ins_length VELVET_HASH_LENGTH *
          VELVET_CONTIG_COVERAGE_EXPECTED)) ∧
    resolveGet initial_heap DEFAULT_VELVET_OPTS "velvetg" "ins_length" =
      none ∧
    resolveDict (generate_contigs_velvet_opts initial_heap stats []).1
        DEFAULT_VELVET_OPTS "velvetg" ≠
      resolveDict initial_heap DEFAULT_VELVET_OPTS "velvetg" ∧
    (generate_contigs_velvet_opts
        (generate_contigs_velvet_opts initial_heap stats []).1 stats2 []).2 =
      DEFAULT_VELVET_OPTS := by
  refine ⟨rfl, rfl, rfl, rfl, fun hEq => ?_, rfl⟩
  have h0 : resolveGet (generate_contigs_velvet_opts initial_heap stats []).1
      DEFAULT_VELVET_OPTS "velvetg" "ins_length" =
      resolveGet initial_heap DEFAULT_VELVET_OPTS "velvetg" "ins_length" := by
    unfold resolveGet
    rw [hEq]
  have h1 : resolveGet (generate_contigs_velvet_opts initial_heap stats []).1
      DEFAULT_VELVET_OPTS "velvetg" "ins_length" =
      some (VVal.num stats.ins_length) := rfl
  have h2 : resolveGet initial_heap DEFAULT_VELVET_OPTS "velvetg" "ins_length" =
      none := rfl
  rw [h1, h2] at h0
  exact Option.noConfusion h0

/-- An override input exercising both option groups: a `velveth`
hash-length override and two `velvetg` overrides, one for a key that
`_run_velvet` forwards (`cov_cutoff`) and one it does not
(`read_trkg`). -/
def override_input_example (v w : ℚ) (s : String) :
    List (String × InnerDict) :=
  [("velveth", [("hash_length", VVal.num v)]),
   ("velvetg", [("cov_cutoff", VVal.num w), ("read_trkg", VVal.str s)])]

set_option maxHeartbeats 1600000 in
lemma generate_contigs_velvet_opts_override_eq
    (stats : SampleStats) (v w : ℚ) (s : String) :
    generate_contigs_velvet_opts initial_heap stats
        (override_input_example v w s) =
      ([(0, [("hash_length", VVal.num v)]),
        (1, [("read_trkg", VVal.str s),
             ("cov_cutoff", VVal.num w),
             ("min_contig_lgth", VVal.num VELVET_MIN_CONTIG_LENGTH),
             ("ins_length", VVal.num stats.ins_length),
             ("ins_length_sd", VVal.num stats.ins_length_sd),
             ("exp_cov", VVal.num (kmer_coverage stats.avg_read_coverage
                 stats.ins_length VELVET_HASH_LENGTH *
                 VELVET_CONTIG_COVERAGE_EXPECTED))])],
       DEFAULT_VELVET_OPTS) := rfl

/-- C8 (amended): a caller-supplied override is applied key-by-key
within its option group and takes precedence over the computed default
in the option dictionary; the overridden value reaches the external
invocation for every `velveth` key and for the `velvetg` keys read by
`_run_velvet` (`ins_length`, `ins_length_sd`, `exp_cov`, `cov_cutoff`,
`min_contig_lgth`) — but `velvetg` keys outside that set are never
forwarded: `read_trkg` and `scaffolding` are passed as the hard-coded
literals `yes` and `no` whatever the dictionary holds. -/
theorem generate_contigs_velvet_option_overrides
    (stats : SampleStats) (v w : ℚ) (s : String) :
    resolveGet (generate_contigs_velvet_opts initial_heap stats
        (override_input_example v w s)).1
      (generate_contigs_velvet_opts initial_heap stats
        (override_input_example v w s)).2
      "velveth" "hash_length" = some (VVal.num v) ∧
    velveth_args (generate_contigs_velvet_opts initial_heap stats
        (override_input_example v w s)).1
      (generate_contigs_velvet_opts initial_heap stats
        (override_input_example v w s)).2
      "reads.bam" =
      [VelvetArg.val (some (VVal.num v)), VelvetArg.lit "-bam",
       VelvetArg.lit "-shortPaired", VelvetArg.lit "reads.bam"] ∧
    resolveGet (generate_contigs_velvet_opts initial_heap stats
        (override_input_example v w s)).1
      (generate_contigs_velvet_opts initial_heap stats
        (override_input_example v w s)).2
      "velvetg" "read_trkg" = some (VVal.str s) ∧
    velvetg_args (generate_contigs_velvet_opts initial_heap stats
        (override_input_example v w s)).1
      (generate_contigs_velvet_opts initial_heap stats
        (override_input_example v w s)).2
      "assembly_dir" =
      [VelvetArg.lit "assembly_dir",
       VelvetArg.lit "-ins_length",
       VelvetArg.val (some (VVal.num stats.ins_length)),
       VelvetArg.lit "-exp_cov",
       VelvetArg.val (some (VVal.num (kmer_coverage stats.avg_read_coverage
           stats.ins_length VELVET_HASH_LENGTH *
           VELVET_CONTIG_COVERAGE_EXPECTED))),
       VelvetArg.lit "-scaffolding", VelvetArg.lit "no",
       VelvetArg.lit "-ins_length_sd",
       VelvetArg.val (some (VVal.num stats.ins_length_sd)),
       VelvetArg.lit "-cov_cutoff", VelvetArg.val (some (VVal.num w)),
       VelvetArg.lit "-min_contig_lgth",
       VelvetArg.val (some (VVal.num VELVET_MIN_CONTIG_LENGTH)),
       VelvetArg.lit "-read_trkg", VelvetArg.lit "yes"] := by
  rw [generate_contigs_velvet_opts_override_eq]
  exact ⟨rfl, rfl, rfl, rfl⟩

/-- The velvet options produced by a `generate_contigs` call whose
caller overrides `velvetg.read_trkg` to `"no"`, on a sample with
insert length 300, insert stdev 30 and average coverage 30. -/
def read_trkg_no_opts : Heap × TopDict :=
  generate_contigs_velvet_opts initial_heap ⟨300, 30, 30⟩
    [("velvetg", [("read_trkg", VVal.str "no")])]

set_option maxHeartbeats 1600000 in
lemma velvetg_args_read_trkg_no :
    velvetg_args read_trkg_no_opts.1 read_trkg_no_opts.2 "assembly_dir" =
      [VelvetArg.lit "assembly_dir",
       VelvetArg.lit "-ins_length", VelvetArg.val (some (VVal.num 300)),
       VelvetArg.lit "-exp_cov",
       VelvetArg.val (some (VVal.num (kmer_coverage 30 300 VELVET_HASH_LENGTH *
           VELVET_CONTIG_COVERAGE_EXPECTED))),
       VelvetArg.lit "-scaffolding", VelvetArg.lit "no",
       VelvetArg.lit "-ins_length_sd", VelvetArg.val (some (VVal.num 30)),
       VelvetArg.lit "-cov_cutoff",
       VelvetArg.val (some (VVal.num (kmer_coverage 30 300 VELVET_HASH_LENGTH *
           VELVET_CONTIG_COVERAGE_CUTOFF))),
       VelvetArg.lit "-min_contig_lgth",
       VelvetArg.val (some (VVal.num VELVET_MIN_CONTIG_LENGTH)),
       VelvetArg.lit "-read_trkg", VelvetArg.lit "yes"] := rfl

/-- C8 counterexample: with the override `velvetg.read_trkg = "no"`
the option dictionary does hold `"no"`, yet the `velvetg` command line
still carries the hard-coded `-read_trkg yes` and the overridden value
appears nowhere in it — so an override is not always the value passed
to the external invocation. -/
theorem run_velvet_ignores_read_trkg_override :
    resolveGet read_trkg_no_opts.1 read_trkg_no_opts.2
      "velvetg" "read_trkg" = some (VVal.str "no") ∧
    VelvetArg.val (some (VVal.str "no")) ∉
      velvetg_args read_trkg_no_opts.1 read_trkg_no_opts.2 "assembly_dir" ∧
    VelvetArg.flagval "read_trkg" (VVal.str "no") ∉
      velvetg_args read_trkg_no_opts.1 read_trkg_no_opts.2 "assembly_dir" ∧
    VelvetArg.lit "yes" ∈
      velvetg_args read_trkg_no_opts.1 read_trkg_no_opts.2 "assembly_dir" := by
  refine ⟨rfl, ?_, ?_, ?_⟩ <;> rw [velvetg_args_read_trkg_no] <;> simp

/-- C1 (amended): when the isolated reassembly of a contig's supporting
reads yields exactly one record, the refinement replaces the contig's
sequence with the reassembled one while the label, coverage and
node-number metadata stay those of the original; when it yields more
than one record the original is kept unchanged.  (The zero-record case
is settled by the counterexample: it raises an `IndexError` instead of
keeping the original.) -/
theorem refine_contig_single_node_policy :
    (∀ (o : RefinedContig) (r : SeqRecord),
      refine_contig_with_reassembly o [r] =
        Except.ok { seq := r.seq, meta := o.meta }) ∧
    (∀ (o : RefinedContig) (rs : List SeqRecord), rs.length > 1 →
      refine_contig_with_reassembly o rs = Except.ok o) := by
  refine ⟨fun o r => rfl, fun o rs h => ?_⟩
  unfold refine_contig_with_reassembly extract_single_node_from_contig_reassembly
  rw [if_pos h]

/-- A concrete contig for exercising the refinement policy: label
`s_01`, coverage 5, node number 3, sequence `ACGT`. -/
def example_original_contig : RefinedContig :=
  { seq := "ACGT", meta := { label := "s_01", coverage := 5, node_number := 3 } }

/-- Witness for C1 on a one-record and a two-record reassembly. -/
theorem refine_contig_single_node_policy_witness :
    refine_contig_with_reassembly example_original_contig [{ seq := "CCCC" }] =
      Except.ok { seq := "CCCC", meta := example_original_contig.meta } ∧
    refine_contig_with_reassembly example_original_contig
        [{ seq := "CCCC" }, { seq := "GGGG" }] =
      Except.ok example_original_contig :=
  ⟨refine_contig_single_node_policy.1 example_original_contig { seq := "CCCC" },
   refine_contig_single_node_policy.2 example_original_contig
      [{ seq := "CCCC" }, { seq := "GGGG" }] (by decide)⟩

/-- C1 counterexample: an isolated reassembly yielding zero contigs
does not keep the original sequence — `records[0]` raises an
`IndexError`, so the refinement step fails instead of falling back. -/
theorem refine_contig_zero_records_counterexample :
    refine_contig_with_reassembly example_original_contig [] =
      Except.error "IndexError: list index out of range" ∧
    refine_contig_with_reassembly example_original_contig [] ≠
      Except.ok example_original_contig := by
  refine ⟨rfl, fun h => ?_⟩
  have h1 : refine_contig_with_reassembly example_original_contig [] =
      Except.error "IndexError: list index out of range" := rfl
  rw [h1] at h
  exact Except.noConfusion h

/-- C4: on a sample with a prior run the cleanup does not remove the
derived visualization tracks: the source computes the jbrowse
`indiv_tracks` parent path but never joins it onto the per-contig track
directory names, so `shutil.rmtree` receives the bare relative
subdirectory name and raises an `OSError` while the real track
directories sit untouched under the jbrowse directory; on a sample
with no prior run the cleanup is indeed a successful no-op. -/
theorem clean_up_previous_runs_jbrowse_path_bug :
    clean_up_previous_runs_of_sv_calling_pipeline "/jb" "/data/sa1"
      { contig_uids := ["abc"],
        dataset_types := ["VCF_DE_NOVO_ASSEMBLED_CONTIGS"],
        variant_uids := [7],
        fs := ["/jb/indiv_tracks/abc_BWA_STRUCTURAL_VARIANT_INDICATING_READS",
               "/jb/indiv_tracks/abc_BWA_STRUCTURAL_VARIANT_INDICATING_READS_COVERAGE",
               "/data/sa1/assembly"] } =
      Except.error
        "OSError: no such directory: abc_BWA_STRUCTURAL_VARIANT_INDICATING_READS" ∧
    clean_up_previous_runs_of_sv_calling_pipeline "/jb" "/data/sa1"
      { contig_uids := [], dataset_types := [], variant_uids := [], fs := [] } =
      Except.ok
        { contig_uids := [], dataset_types := [], variant_uids := [], fs := [] } :=
  ⟨rfl, rfl⟩

lemma mem_insert_desc {x c : Contig} {l : List Contig}
    (h : x ∈ insert_desc c l) : x = c ∨ x ∈ l := by
  induction l with
  | nil => simpa [insert_desc] using h
  | cons d ds ih =>
    unfold insert_desc at h
    by_cases hle :
        length_weighted_coverage d ≤ length_weighted_coverage c
    · rw [if_pos hle] at h
      rcases List.mem_cons.mp h with rfl | h2
      · exact Or.inl rfl
      · exact Or.inr h2
    · rw [if_neg hle] at h
      rcases List.mem_cons.mp h with rfl | h2
      · exact Or.inr (List.mem_cons_self _ _)
      · rcases ih h2 with h3 | h4
        · exact Or.inl h3
        · exact Or.inr (List.mem_cons_of_mem _ h4)

lemma insert_desc_pairwise (c : Contig) {l : List Contig}
    (h : l.Pairwise (fun a b =>
      length_weighted_coverage b ≤ length_weighted_coverage a)) :
    (insert_desc c l).Pairwise (fun a b =>
      length_weighted_coverage b ≤ length_weighted_coverage a) := by
  induction l with
  | nil => simp [insert_desc]
  | cons d ds ih =>
    rcases List.pairwise_cons.mp h with ⟨hd, hds⟩
    unfold insert_desc
    by_cases hle :
        length_weighted_coverage d ≤ length_weighted_coverage c
    · rw [if_pos hle]
      refine List.pairwise_cons.mpr ⟨?_, h⟩
      intro x hx
      rcases List.mem_cons.mp hx with rfl | hx2
      · exact hle
      · exact le_trans (hd x hx2) hle
    · rw [if_neg hle]
      refine List.pairwise_cons.mpr ⟨?_, ih hds⟩
      intro x hx
      rcases mem_insert_desc hx with rfl | hx2
      · exact le_of_not_le hle
      · exact hd x hx2

lemma insert_desc_filter (c : Contig) (l : List Contig) (q : ℚ) :
    (insert_desc c l).filter
        (fun d => decide (length_weighted_coverage d = q)) =
      if length_weighted_coverage c = q then
        c :: l.filter (fun d => decide (length_weighted_coverage d = q))
      else l.filter (fun d => decide (length_weighted_coverage d = q)) := by
  induction l with
  | nil =>
    by_cases hc : length_weighted_coverage c = q <;>
      simp [insert_desc, hc]
  | cons d ds ih =>
    unfold insert_desc
    by_cases hle :
        length_weighted_coverage d ≤ length_weighted_coverage c
    · rw [if_pos hle]
      by_cases hc : length_weighted_coverage c = q <;>
        simp [List.filter_cons, hc]
    · rw [if_neg hle]
      by_cases hd : length_weighted_coverage d = q
      · have hc : ¬ length_weighted_coverage c = q := by
          intro hc
          exact hle (le_of_eq (hd.trans hc.symm))
        simp [List.filter_cons, hd, hc, ih]
      · by_cases hc : length_weighted_coverage c = q <;>
          simp [List.filter_cons, hd, hc, ih]

lemma sort_desc_stable_pairwise (l : List Contig) :
    (sort_desc_stable l).Pairwise (fun a b =>
      length_weighted_coverage b ≤ length_weighted_coverage a) := by
  induction l with
  | nil => simp [sort_desc_stable]
  | cons c cs ih => exact insert_desc_pairwise c ih

lemma sort_desc_stable_filter (l : List Contig) (q : ℚ) :
    (sort_desc_stable l).filter
        (fun d => decide (length_weighted_coverage d = q)) =
      l.filter (fun d => decide (length_weighted_coverage d = q)) := by
  induction l with
  | nil => rfl
  | cons c cs ih =>
    unfold sort_desc_stable
    rw [insert_desc_filter]
    by_cases hc : length_weighted_coverage c = q <;>
      simp [List.filter_cons, hc, ih]

lemma insert_desc_length (c : Contig) (l : List Contig) :
    (insert_desc c l).length = l.length + 1 := by
  induction l with
  | nil => rfl
  | cons d ds ih =>
    unfold insert_desc
    by_cases hle :
        length_weighted_coverage d ≤ length_weighted_coverage c
    · rw [if_pos hle]
      rfl
    · rw [if_neg hle]
      simp [List.length_cons, ih]

lemma sort_desc_stable_length (l : List Contig) :
    (sort_desc_stable l).length = l.length := by
  induction l with
  | nil => rfl
  | cons c cs ih =>
    unfold sort_desc_stable
    rw [insert_desc_length, ih]
    rfl

/-- C5: `evaluate_contigs` orders the contig list by
`num_bases * coverage` descending (every earlier element's key is at
least every later one's) with ties broken by the contigs' original
insertion order (for each key value, the subsequence of contigs with
that key is exactly their original subsequence); in particular the
contigs with (bases, coverage) = (1000, 10), (500, 25), (2000, 3) are
reordered to (500, 25), (1000, 10), (2000, 3). -/
theorem evaluate_contigs_ranking :
    (∀ l : List Contig,
      (sort_desc_stable l).Pairwise (fun a b =>
        length_weighted_coverage b ≤ length_weighted_coverage a)) ∧
    (∀ (l : List Contig) (q : ℚ),
      (sort_desc_stable l).filter
          (fun c => decide (length_weighted_coverage c = q)) =
        l.filter (fun c => decide (length_weighted_coverage c = q))) ∧
    sort_desc_stable
        [{ label := "A", num_bases := 1000, coverage := 10 },
         { label := "B", num_bases := 500, coverage := 25 },
         { label := "C", num_bases := 2000, coverage := 3 }] =
      [{ label := "B", num_bases := 500, coverage := 25 },
       { label := "A", num_bases := 1000, coverage := 10 },
       { label := "C", num_bases := 2000, coverage := 3 }] := by
  refine ⟨sort_desc_stable_pairwise, sort_desc_stable_filter, ?_⟩
  norm_num [sort_desc_stable, insert_desc, length_weighted_coverage]

/-- C6: `evaluate_contigs` requires at least one contig: on every
non-empty contig list the `contig_list[0]` access succeeds and the
function returns a result for any placement outcome, while on the
empty list it fails fatally with an `IndexError` before producing any
variant output. -/
theorem evaluate_contigs_requires_nonempty_contig_list
    (gcp : List Contig → List Contig × List VarDict × List VarDict)
    (data_dir : String) :
    (∀ l : List Contig, l ≠ [] →
      ∃ out, evaluate_contigs gcp data_dir l = Except.ok out) ∧
    evaluate_contigs gcp data_dir [] =
      Except.error "IndexError: list index out of range" := by
  constructor
  · intro l hl
    unfold evaluate_contigs
    match hs : sort_desc_stable l with
    | [] =>
      exfalso
      have hlen := sort_desc_stable_length l
      rw [hs] at hlen
      exact hl (List.eq_nil_of_length_eq_zero hlen.symm)
    | c :: cs => exact ⟨_, rfl⟩
  · rfl

/-- Witness for C6 on a one-element contig list and a trivial
placement function. -/
theorem evaluate_contigs_requires_nonempty_contig_list_witness :
    ∃ out, evaluate_contigs (fun l => (l, [], [])) "/d"
      [{ label := "A", num_bases := 10, coverage := 1 }] = Except.ok out :=
  (evaluate_contigs_requires_nonempty_contig_list (fun l => (l, [], []))
      "/d").1
    [{ label := "A", num_bases := 10, coverage := 1 }] (by simp)

/-- C9: `evaluate_contigs` writes a VCF file and registers the
corresponding dataset for a result group exactly when that group is
non-empty — the placeable-contig artifact appears iff there are
placeable contigs, the graph-walk artifact iff the translocation list
is non-empty, the mobile-element artifact iff that list is non-empty —
and on any non-empty contig list the function returns exactly the
artifacts of the three groups produced by the placement. -/
theorem evaluate_contigs_outputs_iff_nonempty
    (data_dir : String) (p : List Contig) (v m : List VarDict) :
    ((∃ a ∈ evaluate_contigs_outputs data_dir p v m,
        a.dataset_type = "VCF_DE_NOVO_ASSEMBLED_CONTIGS") ↔ p ≠ []) ∧
    ((∃ a ∈ evaluate_contigs_outputs data_dir p v m,
        a.dataset_type = "VCF_DE_NOVO_ASSEMBLY_GRAPH_WALK") ↔ v ≠ []) ∧
    ((∃ a ∈ evaluate_contigs_outputs data_dir p v m,
        a.dataset_type = "VCF_DE_NOVO_ASSEMBLY_ME_GRAPH_WALK") ↔ m ≠ []) ∧
    (∀ (gcp : List Contig → List Contig × List VarDict × List VarDict)
        (l : List Contig), l ≠ [] →
      evaluate_contigs gcp data_dir l =
        Except.ok (evaluate_contigs_outputs data_dir
          (gcp (sort_desc_stable l)).1 (gcp (sort_desc_stable l)).2.1
          (gcp (sort_desc_stable l)).2.2)) := by
  refine ⟨?_, ?_, ?_, ?_⟩
  · by_cases hp : p = [] <;> by_cases hv : v = [] <;>
      by_cases hm : m = [] <;>
      simp [evaluate_contigs_outputs, List.length_eq_zero, hp, hv, hm]
  · by_cases hp : p = [] <;> by_cases hv : v = [] <;>
      by_cases hm : m = [] <;>
      simp [evaluate_contigs_outputs, List.length_eq_zero, hp, hv, hm]
  · by_cases hp : p = [] <;> by_cases hv : v = [] <;>
      by_cases hm : m = [] <;>
      simp [evaluate_contigs_outputs, List.length_eq_zero, hp, hv, hm]
  · intro gcp l hl
    unfold evaluate_contigs
    match hs : sort_desc_stable l with
    | [] =>
      exfalso
      have hlen := sort_desc_stable_length l
      rw [hs] at hlen
      exact hl (List.eq_nil_of_length_eq_zero hlen.symm)
    | c :: cs => rfl

/-- Witness for C9 on concrete non-empty and empty groups. -/
theorem evaluate_contigs_outputs_iff_nonempty_witness :
    (∃ a ∈ evaluate_contigs_outputs "/d"
        [{ label := "A", num_bases := 10, coverage := 1 }] [] [{ info := "t" }],
      a.dataset_type = "VCF_DE_NOVO_ASSEMBLED_CONTIGS") ∧
    ¬ (∃ a ∈ evaluate_contigs_outputs "/d"
        [{ label := "A", num_bases := 10, coverage := 1 }] [] [{ info := "t" }],
      a.dataset_type = "VCF_DE_NOVO_ASSEMBLY_GRAPH_WALK") ∧
    evaluate_contigs (fun l => (l, [], [])) "/d"
        [{ label := "A", num_bases := 10, coverage := 1 }] =
      Except.ok (evaluate_contigs_outputs "/d"
        [{ label := "A", num_bases := 10, coverage := 1 }] [] []) := by
  refine ⟨?_, ?_, ?_⟩
  · exact (evaluate_contigs_outputs_iff_nonempty "/d"
        [{ label := "A", num_bases := 10, coverage := 1 }] [] [{ info := "t" }]).1.mpr
      (by simp)
  · intro hex
    exact (by simp :
        ¬ (([] : List VarDict) ≠ []))
      ((evaluate_contigs_outputs_iff_nonempty "/d"
        [{ label := "A", num_bases := 10, coverage := 1 }] [] [{ info := "t" }]).2.1.mp hex)
  · have h := (evaluate_contigs_outputs_iff_nonempty "/d"
        [{ label := "A", num_bases := 10, coverage := 1 }] [] []).2.2.2
        (fun l => (l, [], []))
        [{ label := "A", num_bases := 10, coverage := 1 }] (by simp)
    rw [h]
    rfl

lemma get_or_create_sv_dataset_existing_no_overwrite (st : EvState)
    (key : SVKey) (d : SVKey × Nat)
    (h : st.datasets.filter (fun p => p.1 == key) = [d]) :
    get_or_create_sv_dataset false st key = Except.ok (d.2, st) := by
  simp only [get_or_create_sv_dataset, h]
  rfl

lemma aggregate_sv_datasets_existing_no_overwrite
    (classes : SVKey → Bool) (ks : List SVKey) (st : EvState)
    (h : ∀ k ∈ ks, classes k = true →
      ∃ d, st.datasets.filter (fun p => p.1 == k) = [d]) :
    ∃ ids, aggregate_sv_datasets false classes ks st = Except.ok (ids, st) := by
  induction ks with
  | nil => exact ⟨[], rfl⟩
  | cons k ks ih =>
    obtain ⟨ids, hids⟩ :=
      ih (fun k2 hk2 hc2 => h k2 (List.mem_cons_of_mem _ hk2) hc2)
    cases hcb : classes k with
    | false =>
      refine ⟨ids, ?_⟩
      simp only [aggregate_sv_datasets, hcb]
      exact hids
    | true =>
      obtain ⟨d, hd⟩ := h k (List.mem_cons_self _ _) hcb
      refine ⟨d.2 :: ids, ?_⟩
      simp only [aggregate_sv_datasets, hcb,
        get_or_create_sv_dataset_existing_no_overwrite st k d hd, hids,
        if_true]

/-- C3: evidence gathering is idempotent under `overwrite=false` — an
enabled category whose dataset already exists is returned as-is with
the state unchanged (no regeneration, no duplicate dataset); when
furthermore a discordant dataset exists and the compiled
`.with_pairs.filtered.bam` file exists, `get_sv_indicating_reads`
returns that file with the whole state unchanged; and under
`overwrite=true` an existing per-category dataset is deleted before
the category's generator runs and registers the fresh dataset. -/
theorem get_sv_indicating_reads_idempotent_no_overwrite :
    (∀ (st : EvState) (key : SVKey) (d : SVKey × Nat),
      st.datasets.filter (fun p => p.1 == key) = [d] →
      get_or_create_sv_dataset false st key = Except.ok (d.2, st)) ∧
    (∀ (st : EvState) (input : List (SVKey × Bool)),
      (∀ k ∈ sv_indicant_keys,
        updated_sv_indicant_classes input k = true →
        ∃ d, st.datasets.filter (fun p => p.1 == k) = [d]) →
      (∃ d, st.datasets.filter (fun p => p.1 == SVKey.discordant) = [d]) →
      st.files.contains
        (sv_indicants_filtered_path (updated_sv_indicant_classes input)) =
        true →
      get_sv_indicating_reads false input st =
        Except.ok
          (sv_indicants_filtered_path (updated_sv_indicant_classes input),
           st)) ∧
    (∀ (st : EvState) (key : SVKey) (d : SVKey × Nat),
      st.datasets.filter (fun p => p.1 == key) = [d] →
      get_or_create_sv_dataset true st key =
        Except.ok (st.nextId,
          { st with
            datasets := st.datasets.filter (fun p => !(p.2 == d.2)) ++
              [(key, st.nextId)],
            nextId := st.nextId + 1,
            generated := st.generated ++ [key] })) := by
  refine ⟨get_or_create_sv_dataset_existing_no_overwrite, ?_, ?_⟩
  · intro st input hall hdisc hfile
    obtain ⟨ids, hids⟩ := aggregate_sv_datasets_existing_no_overwrite
      (updated_sv_indicant_classes input) sv_indicant_keys st hall
    obtain ⟨d, hd⟩ := hdisc
    simp only [get_sv_indicating_reads, hids, hd, hfile]
    rfl
  · intro st key d h
    simp only [get_or_create_sv_dataset, h]
    rfl

/-- The evidence state after a first default-configuration run:
exactly one dataset per enabled category, the compiled evidence file
present, and the merge of the four categories recorded. -/
def after_first_run_state : EvState :=
  { datasets := [(SVKey.clipped, 0), (SVKey.split, 1),
      (SVKey.unmapped, 2), (SVKey.discordant, 3)],
    nextId := 4,
    generated := [SVKey.clipped, SVKey.split, SVKey.unmapped,
      SVKey.discordant],
    files :=
      ["bwa_align.clipped_discordant_split_unmapped.with_pairs.filtered.bam"],
    merges := [[0, 1, 2, 3]] }

/-- Witness for C3 on the state left behind by a first
default-configuration run. -/
theorem get_sv_indicating_reads_idempotent_no_overwrite_witness :
    get_or_create_sv_dataset false after_first_run_state SVKey.clipped =
      Except.ok (0, after_first_run_state) ∧
    get_sv_indicating_reads false [] after_first_run_state =
      Except.ok
        (sv_indicants_filtered_path (updated_sv_indicant_classes []),
         after_first_run_state) ∧
    get_or_create_sv_dataset true after_first_run_state SVKey.clipped =
      Except.ok (after_first_run_state.nextId,
        { after_first_run_state with
          datasets := after_first_run_state.datasets.filter
              (fun p => !(p.2 == 0)) ++
            [(SVKey.clipped, after_first_run_state.nextId)],
          nextId := after_first_run_state.nextId + 1,
          generated := after_first_run_state.generated ++ [SVKey.clipped] }) := by
  refine ⟨get_sv_indicating_reads_idempotent_no_overwrite.1
      after_first_run_state SVKey.clipped (SVKey.clipped, 0) rfl,
    get_sv_indicating_reads_idempotent_no_overwrite.2.1
      after_first_run_state [] ?_ ⟨(SVKey.discordant, 3), rfl⟩ (by decide),
    get_sv_indicating_reads_idempotent_no_overwrite.2.2
      after_first_run_state SVKey.clipped (SVKey.clipped, 0) rfl⟩
  intro k hk hc
  simp only [sv_indicant_keys, List.mem_cons, List.not_mem_nil, or_false]
    at hk
  rcases hk with rfl | rfl | rfl | rfl | rfl | rfl
  · simp [updated_sv_indicant_classes, default_sv_indicant_classes] at hc
  · simp [updated_sv_indicant_classes, default_sv_indicant_classes] at hc
  · exact ⟨(SVKey.clipped, 0), rfl⟩
  · exact ⟨(SVKey.split, 1), rfl⟩
  · exact ⟨(SVKey.unmapped, 2), rfl⟩
  · exact ⟨(SVKey.discordant, 3), rfl⟩

/-- C7 (amended): for every configuration of the five other categories
with the discordant category enabled, starting from a fresh sample
state `get_sv_indicating_reads` generates exactly the enabled
categories (in the fixed key order), registers exactly one dataset per
enabled category, and merges exactly those datasets' read sets —
disabled categories are skipped and contribute nothing.  (Disabling
the discordant category is settled by the counterexample: the
unconditional genome-browser-track lookup then fails.) -/
theorem get_sv_indicating_reads_enabled_categories_only
    (b1 b2 b3 b4 b5 : Bool) :
    (get_sv_indicating_reads false
        [(SVKey.altalign, b1), (SVKey.piled, b2), (SVKey.clipped, b3),
         (SVKey.split, b4), (SVKey.unmapped, b5), (SVKey.discordant, true)]
        { datasets := [], nextId := 0, generated := [], files := [],
          merges := [] }).toOption.map
        (fun r => (r.2.generated, r.2.datasets.map Prod.fst,
          decide (r.2.merges = [r.2.datasets.map Prod.snd]))) =
      some (sv_indicant_keys.filter (updated_sv_indicant_classes
          [(SVKey.altalign, b1), (SVKey.piled, b2), (SVKey.clipped, b3),
           (SVKey.split, b4), (SVKey.unmapped, b5),
           (SVKey.discordant, true)]),
        sv_indicant_keys.filter (updated_sv_indicant_classes
          [(SVKey.altalign, b1), (SVKey.piled, b2), (SVKey.clipped, b3),
           (SVKey.split, b4), (SVKey.unmapped, b5),
           (SVKey.discordant, true)]),
        true) := by
  revert b1 b2 b3 b4 b5
  decide

/-- C7 counterexample: disabling the discordant category makes the
classification stage fail — `get_sv_indicating_reads` unconditionally
looks the discordant dataset up to build a genome-browser track, and
on a fresh sample with the category disabled no such dataset exists,
so the stage raises `DoesNotExist` instead of skipping the category
gracefully. -/
theorem get_sv_indicating_reads_disabled_discordant_fails :
    get_sv_indicating_reads false [(SVKey.discordant, false)]
      { datasets := [], nextId := 0, generated := [], files := [],
        merges := [] } =
      Except.error "Dataset.DoesNotExist" := rfl

end Millstone
